import Mathlib

/-!
Shallow embedding of the retry engine from `src/retry.ts` of the
`@yveskaufmann/retry` package, together with its built-in delay strategies
(`Delays`), built-in retry conditions (`Conditions`) and the
`MaxRetryAttemptsReached` error type.

Modelling choices:
* A thrown JavaScript error is modelled by `JsError`, carrying the error
  class tag (`name`, e.g. "TypeError") and its `message`.
* `null`/`undefined` values (the initial `result` and `previousError`
  variables) are modelled by `Option`.
* The asynchronous operation is modelled as a function from the invocation
  index (0-based: the k-th time `operation()` is called) to its outcome:
  `Except JsError T` (`.error` = the promise rejected, `.ok` = resolved).
* The `retryWhen` predicate may itself throw when evaluated, so it is
  modelled as `Option T → Option JsError → Except JsError Bool`
  (`.error` = the predicate threw; its call site in `Retry.do` is outside
  the engine's try/catch).
* Awaiting `wait(d)` and invoking `onFailedAttempt` are side effects; the
  embedding records them in an execution log (`LoopLog`): the number of
  `operation()` invocations, the list of awaited delay durations in order,
  and the list of `onFailedAttempt` calls with their arguments.
-/

/-- A JavaScript error value: its class tag (`name`) and `message`. -/
structure JsError where
  name : String
  message : String
deriving DecidableEq, Repr

/-- The `MaxRetryAttemptsReached` error object: final `message` and
optional `cause`. -/
structure MaxRetryAttemptsReached where
  message : String
  cause : Option JsError
deriving DecidableEq, Repr

/-- The `MaxRetryAttemptsReached` constructor: stores the cause and appends
the cause suffix to the message, exactly as `src/retry.ts` lines 233-245. -/
def MaxRetryAttemptsReached.make (message : String) (cause : Option JsError) :
    MaxRetryAttemptsReached :=
  { message :=
      message ++
        (match cause with
          | some c => " Caused by thrown error: " ++ c.message
          | none => " Caused by: unfulfilled retry condition"),
    cause := cause }

/-- The observable resolution of one call to `Retry.do`: the returned value
(`ok`, possibly `null`), a rethrown/propagated error (`thrown`, the very
value that was captured or that the predicate threw), or a synthesized
`MaxRetryAttemptsReached` (`maxAttempts`). -/
inductive Outcome (T : Type) where
  | ok (value : Option T)
  | thrown (e : JsError)
  | maxAttempts (e : MaxRetryAttemptsReached)
deriving DecidableEq, Repr

/-- How the do/while loop in `Retry.do` exited: `predThrow` when the
`retryWhen` call itself threw (the exception propagates, skipping the code
after the loop), or `finished` with the values of the local variables
`attempts`, `attemptsLeft`, `result`, `previousError` at exit. -/
inductive LoopExit (T : Type) where
  | predThrow (e : JsError)
  | finished (attempts : Nat) (attemptsLeft : Bool)
      (result : Option T) (previousError : Option JsError)
deriving DecidableEq, Repr

/-- Execution log of one call to `Retry.do`: how many times `operation()`
was invoked, the delay durations awaited via `wait` (in order), and the
`onFailedAttempt` invocations with their four arguments
`(attempt, attemptsLeft, result, err)`. -/
@[ext]
structure LoopLog (T : Type) where
  invocations : Nat
  waits : List Int
  onFailedCalls : List (Nat × Int × Option T × Option JsError)
deriving DecidableEq, Repr

/-- The options record taken by `Retry.do` (`RetryOptions` in
`src/retry.ts`); `onFailedAttempt` records whether a callback function was
configured (`typeof onFailedAttempt === 'function'`). -/
structure RetryOptions (T : Type) where
  maxRetries : Option Nat := none
  throwMaxAttemptError : Bool := false
  nameOfOperation : Option String := none
  maxDelay : Option Int := none
  retryWhen : Option T → Option JsError → Except JsError Bool
  delay : Option (Nat → Option JsError → Int) := none
  onFailedAttempt : Bool := false

/-- One `try { result = await operation() ... } catch` block: the k-th
invocation's outcome updates `result`/`previousError` (success overwrites
both, a thrown error leaves `result` unchanged). -/
def attemptOutcome {T : Type} (op : Nat → Except JsError T) (k : Nat)
    (result : Option T) (_previousError : Option JsError) :
    Option T × Option JsError :=
  match op k with
  | .ok v => (some v, none)
  | .error e => (result, some e)

/-- The clamp applied to a computed delay:
`if (typeof maxDelay === 'number' && maxDelay > 0) delayDuration = Math.min(maxDelay, delayDuration)`. -/
def applyMaxDelay (maxDelay : Option Int) (delayDuration : Int) : Int :=
  match maxDelay with
  | some m => if m > 0 then min m delayDuration else delayDuration
  | none => delayDuration

/-- The do/while loop of `Retry.do` (`src/retry.ts` lines 177-203), from a
state of the local variables `attempts`, `attemptsLeft`, `result`,
`previousError`. Each iteration: invoke the operation, evaluate
`retryWhen` (a throw there aborts everything), `break` on false, record
the `onFailedAttempt` call, update `attemptsLeft := attempts++ < maxRetries`,
and when retrying compute the (clamped) delay, await it and iterate. -/
def doLoop {T : Type} (opts : RetryOptions T) (op : Nat → Except JsError T)
    (maxRetries : Nat) (delayFn : Nat → Option JsError → Int)
    (attempts : Nat) (attemptsLeft : Bool)
    (result : Option T) (previousError : Option JsError) :
    LoopExit T × LoopLog T :=
  let s := attemptOutcome op attempts result previousError
  match opts.retryWhen s.1 s.2 with
  | .error e => (.predThrow e, ⟨1, [], []⟩)
  | .ok false => (.finished attempts attemptsLeft s.1 s.2, ⟨1, [], []⟩)
  | .ok true =>
    let calls :=
      if opts.onFailedAttempt then
        [(attempts + 1, (maxRetries : Int) - (attempts : Int), s.1, s.2)]
      else []
    if h : attempts < maxRetries then
      let delayDuration := applyMaxDelay opts.maxDelay (delayFn (attempts + 1) s.2)
      let r := doLoop opts op maxRetries delayFn (attempts + 1) true s.1 s.2
      (r.1, ⟨r.2.invocations + 1, delayDuration :: r.2.waits, calls ++ r.2.onFailedCalls⟩)
    else
      (.finished (attempts + 1) false s.1 s.2, ⟨1, [], calls⟩)
termination_by maxRetries - attempts

namespace Retry

/-- `Retry.do` (`src/retry.ts` lines 156-217): apply the defaults
(`maxRetries ?? 2`, `delay ?? Retry.Delays.none()`), run the loop from the
initial state, then resolve: synthesize `MaxRetryAttemptsReached` when
`throwMaxAttemptError && !attemptsLeft`, else rethrow `previousError` when
non-null, else return `result`. `opName` is `operation.name`, the fallback
for `nameOfOperation`. -/
def do' {T : Type} (op : Nat → Except JsError T) (opName : String)
    (opts : RetryOptions T) : Outcome T × LoopLog T :=
  let maxRetries := opts.maxRetries.getD 2
  let delayFn := opts.delay.getD (fun _ _ => 0)
  match doLoop opts op maxRetries delayFn 0 true none none with
  | (.predThrow e, log) => (.thrown e, log)
  | (.finished attempts attemptsLeft result previousError, log) =>
    if opts.throwMaxAttemptError && !attemptsLeft then
      let nm := opts.nameOfOperation.getD opName
      (.maxAttempts (MaxRetryAttemptsReached.make
          (s!"Max re-attempts of {attempts} reached for operation \"{nm}\".")
          previousError), log)
    else
      match previousError with
      | some e => (.thrown e, log)
      | none => (.ok result, log)

end Retry

/- Built-in delay strategies (`class Delays` in `src/retry.ts`); each takes
the count of failed attempts so far and returns a duration in milliseconds. -/
namespace Delays

/-- No delay between retries. -/
def none : Nat → Int := fun _ => 0

/-- Constant delay in milliseconds between retries. -/
def constant (delayInMs : Int) : Nat → Int := fun _ => delayInMs

/-- Linear slope per attempt. -/
def linear (delayInMs : Int) : Nat → Int := fun attempts => (attempts : Int) * delayInMs

/-- Quadratic slope per attempt: `Math.pow(2, Math.max(attempts - 1, 0)) * delayInMs`. -/
def potential (delayInMs : Int) : Nat → Int :=
  fun attempts => 2 ^ (max (attempts - 1) 0) * delayInMs

end Delays

/- Built-in retry conditions (`class Conditions` in `src/retry.ts`). -/
namespace Conditions

/-- Retries an operation on any thrown error (`err != null`). -/
def onAnyError {T : Type} : Option T → Option JsError → Bool :=
  fun _ err => err.isSome

/-- Retries an operation in any case. -/
def always {T : Type} : Option T → Option JsError → Bool :=
  fun _ _ => true

/-- Retries an operation if it returned a nullthy value
(`err == null && result == null`). -/
def onNullResult {T : Type} : Option T → Option JsError → Bool :=
  fun result err => err.isNone && result.isNone

end Conditions

/-- Lifts a plain (non-throwing) retry condition into the predicate type
taken by the engine, where `.error` would mean the predicate itself threw. -/
def liftCond {T : Type} (c : Option T → Option JsError → Bool) :
    Option T → Option JsError → Except JsError Bool :=
  fun result err => .ok (c result err)

/-- Modelled from the spec: the composable condition-builder
(`Retry.Conditions.custom()` exercised by `src/retry.spec.ts`) is not
present in the provided `src/retry.ts`; per §4.2 it is an accumulator on
which callers register error types that should trigger a retry and
arbitrary boolean conditions over the result. An error type is modelled by
its class tag, matched against `JsError.name`. -/
structure ConditionBuilder (T : Type) where
  errorTypes : List String
  resultConditions : List (Option T → Bool)

/-- Modelled from the spec: `Retry.Conditions.custom()` — a fresh builder
with no registered rule. -/
def Conditions.custom {T : Type} : ConditionBuilder T := ⟨[], []⟩

/-- Modelled from the spec: registers an error type that should trigger a
retry. -/
def ConditionBuilder.onError {T : Type} (b : ConditionBuilder T) (errorType : String) :
    ConditionBuilder T :=
  { b with errorTypes := b.errorTypes ++ [errorType] }

/-- Modelled from the spec: registers a boolean condition over the result. -/
def ConditionBuilder.onCondition {T : Type} (b : ConditionBuilder T)
    (cond : Option T → Bool) : ConditionBuilder T :=
  { b with resultConditions := b.resultConditions ++ [cond] }

/-- Modelled from the spec: produces the predicate — true iff **any**
registered rule matches (logical OR across error-type checks and result
conditions), false when no rule is registered. -/
def ConditionBuilder.toCondition {T : Type} (b : ConditionBuilder T) :
    Option T → Option JsError → Bool :=
  fun result err =>
    b.errorTypes.any (fun t =>
        match err with
        | some e => e.name == t
        | Option.none => false)
      || b.resultConditions.any (fun c => c result)

/-- The engine state `(result, previousError)` after the k-th (0-based)
invocation of the operation, obtained by folding `attemptOutcome` from the
initial `(null, null)` state. -/
def runAttempts {T : Type} (op : Nat → Except JsError T) :
    Nat → Option T × Option JsError
  | 0 => attemptOutcome op 0 none none
  | k + 1 =>
    let s := runAttempts op k
    attemptOutcome op (k + 1) s.1 s.2

theorem runAttempts_snd {T : Type} (op : Nat → Except JsError T) (k : Nat) :
    (runAttempts op k).2 = match op k with
      | .ok _ => Option.none
      | .error e => some e := by
  cases k with
  | zero => simp only [runAttempts, attemptOutcome]; cases op 0 <;> rfl
  | succ n => simp only [runAttempts, attemptOutcome]; cases op (n + 1) <;> rfl

theorem runAttempts_ok {T : Type} (op : Nat → Except JsError T) (k : Nat)
    (v : T) (h : op k = .ok v) : runAttempts op k = (some v, Option.none) := by
  cases k with
  | zero => simp only [runAttempts, attemptOutcome, h]
  | succ n => simp only [runAttempts, attemptOutcome, h]

theorem runAttempts_error_fst {T : Type} (op : Nat → Except JsError T) (k : Nat)
    (e : JsError) (h : op (k + 1) = .error e) :
    runAttempts op (k + 1) = ((runAttempts op k).1, some e) := by
  simp only [runAttempts, attemptOutcome, h]

/-- Trace of a run under a predicate that always requests a retry, started
at attempt counter `a` with a state consistent with the attempt history:
the loop exits on the exhausted path with `attempts = maxRetries + 1`,
`attemptsLeft = false`, performs one invocation per counter value `a..M`,
awaits the clamped strategy delay between consecutive attempts, and logs
one `onFailedAttempt` call per attempt (when configured). -/
theorem doLoop_always {T : Type} (opts : RetryOptions T)
    (op : Nat → Except JsError T) (M : Nat) (f : Nat → Option JsError → Int)
    (hp : ∀ r e, opts.retryWhen r e = Except.ok true) :
    ∀ k a (r : Option T) (pe : Option JsError), M - a = k → a ≤ M →
      attemptOutcome op a r pe = runAttempts op a →
      doLoop opts op M f a true r pe =
        (LoopExit.finished (M + 1) false (runAttempts op M).1 (runAttempts op M).2,
         ⟨M - a + 1,
          (List.range' a (M - a)).map
            (fun (i : Nat) => applyMaxDelay opts.maxDelay (f (i + 1) (runAttempts op i).2)),
          if opts.onFailedAttempt then
            (List.range' a (M - a + 1)).map
              (fun (i : Nat) => (i + 1, (M : Int) - (i : Int),
                (runAttempts op i).1, (runAttempts op i).2))
          else []⟩) := by
  intro k
  induction k with
  | zero =>
    intro a r pe hk ha hs
    have haM : a = M := by omega
    subst haM
    rw [doLoop]
    simp only [hs, hp, Nat.lt_irrefl, dite_false, Nat.sub_self, List.range'_zero,
      List.range'_one, List.map_nil, List.map_cons]
    rfl
  | succ k ih =>
    intro a r pe hk ha hs
    have haM : a < M := by omega
    rw [doLoop]
    simp only [hs, hp, haM, dite_true]
    have hnext : attemptOutcome op (a + 1) (runAttempts op a).1 (runAttempts op a).2
        = runAttempts op (a + 1) := rfl
    rw [ih (a + 1) (runAttempts op a).1 (runAttempts op a).2 (by omega) (by omega) hnext]
    have hMa : M - a = k + 1 := hk
    have hMa1 : M - (a + 1) = k := by omega
    simp only [hMa, hMa1]
    refine Prod.ext rfl ?_
    refine LoopLog.ext ?_ ?_ ?_
    · simp
    · show applyMaxDelay opts.maxDelay (f (a + 1) (runAttempts op a).2) ::
        (List.range' (a + 1) k).map
          (fun (i : Nat) => applyMaxDelay opts.maxDelay (f (i + 1) (runAttempts op i).2)) =
        (List.range' a (k + 1)).map
          (fun (i : Nat) => applyMaxDelay opts.maxDelay (f (i + 1) (runAttempts op i).2))
      rw [List.range'_succ, List.map_cons]
    · show (if opts.onFailedAttempt then
          [(a + 1, (M : Int) - (a : Int), (runAttempts op a).1, (runAttempts op a).2)]
        else []) ++
        (if opts.onFailedAttempt then
          (List.range' (a + 1) (k + 1)).map
            (fun (i : Nat) => (i + 1, (M : Int) - (i : Int),
              (runAttempts op i).1, (runAttempts op i).2))
        else []) =
        if opts.onFailedAttempt then
          (List.range' a (k + 1 + 1)).map
            (fun (i : Nat) => (i + 1, (M : Int) - (i : Int),
              (runAttempts op i).1, (runAttempts op i).2))
        else []
      cases opts.onFailedAttempt with
      | false => rfl
      | true => rw [List.range'_succ, List.map_cons]; rfl

/-- Full observable behaviour of `Retry.do` under a predicate that always
requests a retry and an explicit `maxRetries = N`: the budget is exhausted
after `N + 1` invocations, with the delays and `onFailedAttempt` calls of
`doLoop_always`, and the resolution reads the state left by the final
attempt. -/
theorem do'_always {T : Type} (op : Nat → Except JsError T) (opName : String)
    (opts : RetryOptions T) (N : Nat)
    (hN : opts.maxRetries = some N)
    (hp : ∀ r e, opts.retryWhen r e = Except.ok true) :
    Retry.do' op opName opts =
      ((if opts.throwMaxAttemptError then
          Outcome.maxAttempts (MaxRetryAttemptsReached.make
            (s!"Max re-attempts of {N + 1} reached for operation \"{opts.nameOfOperation.getD opName}\".")
            (runAttempts op N).2)
        else
          match (runAttempts op N).2 with
          | some e => Outcome.thrown e
          | Option.none => Outcome.ok (runAttempts op N).1),
       ⟨N + 1,
        (List.range' 0 N).map (fun (i : Nat) =>
          applyMaxDelay opts.maxDelay
            ((opts.delay.getD (fun _ _ => 0)) (i + 1) (runAttempts op i).2)),
        if opts.onFailedAttempt then
          (List.range' 0 (N + 1)).map (fun (i : Nat) =>
            (i + 1, (N : Int) - (i : Int), (runAttempts op i).1, (runAttempts op i).2))
        else []⟩) := by
  have h0 : attemptOutcome op 0 none none = runAttempts op 0 := rfl
  simp only [Retry.do', hN, Option.getD_some,
    doLoop_always opts op N (opts.delay.getD (fun _ _ => 0)) hp N 0 none none
      (by omega) (by omega) h0]
  simp only [Bool.not_false, Bool.and_true, Nat.sub_zero]
  cases hb : opts.throwMaxAttemptError with
  | true => rfl
  | false => cases (runAttempts op N).2 <;> rfl

/-- C1: for every non-negative integer `N`, calling `Retry.do` with
`maxRetries = N` and a retry predicate that always returns true invokes the
operation exactly `N + 1` times: one initial attempt plus `N` retries,
never more. -/
theorem c1_always_retry_invocations {T : Type} (N : Nat)
    (op : Nat → Except JsError T) (opName : String) (opts : RetryOptions T)
    (hN : opts.maxRetries = some N)
    (hp : ∀ r e, opts.retryWhen r e = Except.ok true) :
    (Retry.do' op opName opts).2.invocations = N + 1 := by
  rw [do'_always op opName opts N hN hp]

theorem c1_always_retry_invocations_witness :
    (({ maxRetries := some 3, retryWhen := liftCond Conditions.always } :
        RetryOptions Nat).maxRetries = some 3)
    ∧ (∀ (r : Option Nat) (e : Option JsError),
        liftCond Conditions.always r e = Except.ok true)
    ∧ (Retry.do' (fun _ => Except.ok (0 : Nat)) "op"
        { maxRetries := some 3, retryWhen := liftCond Conditions.always }).2.invocations
        = 3 + 1 :=
  ⟨rfl, fun _ _ => rfl,
    c1_always_retry_invocations 3 (fun _ => Except.ok 0) "op" _ rfl (fun _ _ => rfl)⟩

/-- C5: if the retry predicate returns false on any attempt (including the
first), the do/while loop exits immediately from that iteration: the
iteration performs exactly its one operation invocation, computes/awaits no
delay and fires no `onFailedAttempt` call. -/
theorem c5_predicate_false_stops {T : Type} (opts : RetryOptions T)
    (op : Nat → Except JsError T) (maxRetries : Nat)
    (delayFn : Nat → Option JsError → Int) (attempts : Nat)
    (attemptsLeft : Bool) (result : Option T) (previousError : Option JsError)
    (hstop : opts.retryWhen (attemptOutcome op attempts result previousError).1
        (attemptOutcome op attempts result previousError).2 = Except.ok false) :
    doLoop opts op maxRetries delayFn attempts attemptsLeft result previousError =
      (LoopExit.finished attempts attemptsLeft
        (attemptOutcome op attempts result previousError).1
        (attemptOutcome op attempts result previousError).2,
       ⟨1, [], []⟩) := by
  rw [doLoop]
  simp only [hstop]

theorem c5_predicate_false_stops_witness :
    (({ retryWhen := liftCond Conditions.onAnyError } :
        RetryOptions Nat).retryWhen
        (attemptOutcome (fun _ => Except.ok 7) 0 none none).1
        (attemptOutcome (fun _ => Except.ok 7) 0 none none).2 = Except.ok false)
    ∧ doLoop { retryWhen := liftCond Conditions.onAnyError }
        (fun _ => Except.ok 7) 2 (fun _ _ => 0) 0 true none none =
        (LoopExit.finished 0 true
          (attemptOutcome (fun _ => Except.ok 7) 0 none none).1
          (attemptOutcome (fun _ => Except.ok 7) 0 none none).2,
         ⟨1, [], []⟩) :=
  ⟨rfl, c5_predicate_false_stops _ _ 2 _ 0 true none none rfl⟩

/-- C10: if the `retryWhen` predicate itself throws when evaluated, the
exception propagates immediately out of `Retry.do`: the engine's try/catch
covers only the operation invocation, so the iteration performs no further
attempt, no `onFailedAttempt` call and no delay (first conjunct), and the
thrown value — not a `MaxRetryAttemptsReached` — is the rejection of the
whole call regardless of `throwMaxAttemptError` (second conjunct). -/
theorem c10_predicate_throw_propagates :
    (∀ {T : Type} (opts : RetryOptions T) (op : Nat → Except JsError T)
        (maxRetries : Nat) (delayFn : Nat → Option JsError → Int)
        (attempts : Nat) (attemptsLeft : Bool) (result : Option T)
        (previousError : Option JsError) (e : JsError),
      opts.retryWhen (attemptOutcome op attempts result previousError).1
          (attemptOutcome op attempts result previousError).2 = Except.error e →
      doLoop opts op maxRetries delayFn attempts attemptsLeft result previousError =
        (LoopExit.predThrow e, ⟨1, [], []⟩))
    ∧ (∀ {T : Type} (op : Nat → Except JsError T) (opName : String)
        (opts : RetryOptions T) (e : JsError) (log : LoopLog T),
      doLoop opts op (opts.maxRetries.getD 2) (opts.delay.getD (fun _ _ => 0))
          0 true none none = (LoopExit.predThrow e, log) →
      Retry.do' op opName opts = (Outcome.thrown e, log)) := by
  constructor
  · intro T opts op maxRetries delayFn attempts attemptsLeft result previousError e h
    rw [doLoop]
    simp only [h]
  · intro T op opName opts e log h
    simp only [Retry.do', h]

theorem c10_predicate_throw_propagates_witness :
    (({ retryWhen := fun _ _ => Except.error ⟨"Error", "pred boom"⟩ } :
        RetryOptions Nat).retryWhen
        (attemptOutcome (fun _ => Except.ok 7) 0 none none).1
        (attemptOutcome (fun _ => Except.ok 7) 0 none none).2
        = Except.error ⟨"Error", "pred boom"⟩)
    ∧ Retry.do' (fun _ => Except.ok 7) "op"
        ({ throwMaxAttemptError := true,
           retryWhen := fun _ _ => Except.error ⟨"Error", "pred boom"⟩ } :
          RetryOptions Nat)
        = (Outcome.thrown ⟨"Error", "pred boom"⟩, ⟨1, [], []⟩) :=
  ⟨rfl,
    c10_predicate_throw_propagates.2 (fun _ => Except.ok 7) "op" _
      ⟨"Error", "pred boom"⟩ ⟨1, [], []⟩
      (c10_predicate_throw_propagates.1 _ _ _ _ 0 true none none
        ⟨"Error", "pred boom"⟩ rfl)⟩

/-- Every exit path of `Retry.do` passes the loop's execution log through
unchanged. -/
theorem do'_log {T : Type} (op : Nat → Except JsError T) (opName : String)
    (opts : RetryOptions T) :
    (Retry.do' op opName opts).2 =
      (doLoop opts op (opts.maxRetries.getD 2) (opts.delay.getD (fun _ _ => 0))
        0 true none none).2 := by
  simp only [Retry.do']
  rcases hdl : doLoop opts op (opts.maxRetries.getD 2)
      (opts.delay.getD (fun _ _ => 0)) 0 true none none with ⟨exit, log⟩
  cases exit with
  | predThrow e => rfl
  | finished a al r pe =>
    dsimp only
    split
    · rfl
    · cases pe <;> rfl

/-- In every run of the loop, the number of awaited delays is exactly one
less than the number of operation invocations: a delay is awaited only
between two attempts. -/
theorem doLoop_waits_length {T : Type} (opts : RetryOptions T)
    (op : Nat → Except JsError T) (maxRetries : Nat)
    (delayFn : Nat → Option JsError → Int) :
    ∀ (attempts : Nat) (attemptsLeft : Bool) (result : Option T)
      (previousError : Option JsError),
      (doLoop opts op maxRetries delayFn attempts attemptsLeft result
        previousError).2.waits.length + 1 =
      (doLoop opts op maxRetries delayFn attempts attemptsLeft result
        previousError).2.invocations := by
  intro attempts attemptsLeft result previousError
  induction attempts, attemptsLeft, result, previousError using doLoop.induct opts op maxRetries delayFn with
  | case1 attempts attemptsLeft result previousError s e h =>
    rw [doLoop]; simp only [h]; rfl
  | case2 attempts attemptsLeft result previousError s h =>
    rw [doLoop]; simp only [h]; rfl
  | case3 attempts attemptsLeft result previousError s h hlt ih =>
    simp only [show s = attemptOutcome op attempts result previousError from rfl] at h ih
    rw [doLoop]
    simp only [h, hlt, dite_true, List.length_cons]
    omega
  | case4 attempts attemptsLeft result previousError s h hge =>
    rw [doLoop]; simp only [h, hge, dite_false]; rfl

/-- C8: the delay strategy is invoked, and its value awaited, only between
two attempts that both happen: in every run the number of awaited delays is
exactly `invocations - 1` (so never before the first attempt, never after a
predicate-false exit, and never after the final budget-exhausting failed
attempt), and with `maxRetries = 0` no delay is ever computed at all. -/
theorem c8_delay_only_between_attempts :
    (∀ {T : Type} (op : Nat → Except JsError T) (opName : String)
        (opts : RetryOptions T),
      (Retry.do' op opName opts).2.waits.length + 1 =
        (Retry.do' op opName opts).2.invocations)
    ∧ (∀ {T : Type} (op : Nat → Except JsError T) (opName : String)
        (opts : RetryOptions T), opts.maxRetries = some 0 →
      (Retry.do' op opName opts).2.waits = []) := by
  constructor
  · intro T op opName opts
    rw [do'_log]
    exact doLoop_waits_length opts op _ _ 0 true none none
  · intro T op opName opts hN
    rw [do'_log, hN]
    simp only [Option.getD_some]
    rw [doLoop]
    cases hrw : opts.retryWhen (attemptOutcome op 0 none none).1
        (attemptOutcome op 0 none none).2 with
    | error e => simp [hrw]
    | ok b => cases b <;> simp [hrw]

theorem c8_delay_only_between_attempts_witness :
    (({ maxRetries := some 0, retryWhen := liftCond Conditions.always } :
        RetryOptions Nat).maxRetries = some 0)
    ∧ (Retry.do' (fun _ => Except.ok (5 : Nat)) "op"
        { maxRetries := some 0, retryWhen := liftCond Conditions.always }).2.waits = [] :=
  ⟨rfl, c8_delay_only_between_attempts.2 (fun _ => Except.ok 5) "op" _ rfl⟩

/-- C3: `Retry.do` resolves to a `MaxRetryAttemptsReached` outcome exactly
when `throwMaxAttemptError` is true and the loop exited on the exhausted
path (`attemptsLeft = false`); a predicate-false exit — which always
carries `attemptsLeft = true`, even on the last allowed attempt — never
produces one. -/
theorem c3_outcome_error_iff_exhausted {T : Type} (op : Nat → Except JsError T)
    (opName : String) (opts : RetryOptions T) :
    (∃ m, (Retry.do' op opName opts).1 = Outcome.maxAttempts m) ↔
      (opts.throwMaxAttemptError = true ∧
       ∃ a r pe, (doLoop opts op (opts.maxRetries.getD 2)
          (opts.delay.getD (fun _ _ => 0)) 0 true none none).1
         = LoopExit.finished a false r pe) := by
  simp only [Retry.do']
  rcases hdl : doLoop opts op (opts.maxRetries.getD 2)
      (opts.delay.getD (fun _ _ => 0)) 0 true none none with ⟨exit, log⟩
  cases exit with
  | predThrow e => simp
  | finished a al r pe =>
    cases al with
    | true =>
      simp only [Bool.not_true, Bool.and_false, if_false]
      cases pe <;> simp
    | false =>
      cases htme : opts.throwMaxAttemptError with
      | true => simp
      | false =>
        simp only [Bool.false_and, if_false]
        cases pe <;> simp

/-- C2: when `throwMaxAttemptError` is false and the retry budget is
exhausted (always-true predicate, `maxRetries = N`), `Retry.do` returns the
last successful result if the final attempt did not throw, and otherwise
rethrows the very error value of the final attempt, unwrapped; and a
failing attempt never resets the previously stored result (third
conjunct: after a rejection the stored result is the previous one). -/
theorem c2_exhausted_resolution {T : Type} (N : Nat)
    (op : Nat → Except JsError T) (opName : String) (opts : RetryOptions T)
    (hN : opts.maxRetries = some N)
    (htme : opts.throwMaxAttemptError = false)
    (hp : ∀ r e, opts.retryWhen r e = Except.ok true) :
    (∀ e : JsError, op N = Except.error e →
      (Retry.do' op opName opts).1 = Outcome.thrown e)
    ∧ (∀ v : T, op N = Except.ok v →
      (Retry.do' op opName opts).1 = Outcome.ok (some v))
    ∧ (∀ (k : Nat) (e : JsError), op (k + 1) = Except.error e →
      runAttempts op (k + 1) = ((runAttempts op k).1, some e)) := by
  refine ⟨?_, ?_, ?_⟩
  · intro e he
    rw [do'_always op opName opts N hN hp]
    have h2 : (runAttempts op N).2 = some e := by rw [runAttempts_snd, he]
    simp [htme, h2]
  · intro v hv
    rw [do'_always op opName opts N hN hp]
    rw [runAttempts_ok op N v hv]
    simp [htme]
  · intro k e he
    exact runAttempts_error_fst op k e he

theorem c2_exhausted_resolution_witness :
    (({ maxRetries := some 1, retryWhen := liftCond Conditions.always } :
        RetryOptions Nat).maxRetries = some 1)
    ∧ ((fun k => if k = 0 then Except.ok (9 : Nat)
          else Except.error ⟨"Error", "last boom"⟩ : Nat → Except JsError Nat) 1
        = Except.error ⟨"Error", "last boom"⟩)
    ∧ (Retry.do' (fun k => if k = 0 then Except.ok (9 : Nat)
          else Except.error ⟨"Error", "last boom"⟩ : Nat → Except JsError Nat) "op"
        { maxRetries := some 1, retryWhen := liftCond Conditions.always }).1
        = Outcome.thrown ⟨"Error", "last boom"⟩ :=
  ⟨rfl, rfl,
    (c2_exhausted_resolution 1
      (fun k => if k = 0 then Except.ok 9 else Except.error ⟨"Error", "last boom"⟩)
      "op" _ rfl rfl (fun _ _ => rfl)).1 ⟨"Error", "last boom"⟩ rfl⟩

/-- C6: with an `onFailedAttempt` callback configured, an always-true
predicate and `maxRetries = N`, the callback fires exactly once per attempt
including the final budget-exhausting one — `N + 1` calls in total (so 4
calls for `maxRetries = 3`) — and the `i`-th call (0-based) receives
`attemptNumber = i + 1`, `attemptsLeft = maxRetries - attempts` at the
pre-increment count (`N - i`), and the stored result and error after
attempt `i`. -/
theorem c6_onFailedAttempt_calls {T : Type} (N : Nat)
    (op : Nat → Except JsError T) (opName : String) (opts : RetryOptions T)
    (hN : opts.maxRetries = some N)
    (hcb : opts.onFailedAttempt = true)
    (hp : ∀ r e, opts.retryWhen r e = Except.ok true) :
    (Retry.do' op opName opts).2.onFailedCalls =
      (List.range (N + 1)).map (fun (i : Nat) =>
        (i + 1, (N : Int) - (i : Int), (runAttempts op i).1, (runAttempts op i).2)) := by
  rw [do'_always op opName opts N hN hp]
  simp only [hcb, if_true]
  rw [List.range_eq_range']

theorem c6_onFailedAttempt_calls_witness :
    (({ maxRetries := some 3, retryWhen := liftCond Conditions.always,
        onFailedAttempt := true } : RetryOptions Nat).maxRetries = some 3)
    ∧ (Retry.do' (fun _ => Except.ok (0 : Nat)) "op"
        { maxRetries := some 3, retryWhen := liftCond Conditions.always,
          onFailedAttempt := true }).2.onFailedCalls
      = (List.range (3 + 1)).map (fun (i : Nat) =>
          (i + 1, (3 : Int) - (i : Int),
            (runAttempts (fun _ => Except.ok (0 : Nat)) i).1,
            (runAttempts (fun _ => Except.ok (0 : Nat)) i).2)) :=
  ⟨rfl, c6_onFailedAttempt_calls 3 (fun _ => Except.ok 0) "op" _ rfl rfl
    (fun _ _ => rfl)⟩

/-- C7: with an always-true predicate and `maxRetries = N`, whenever
`maxDelay` is configured as a positive number `m` the delay awaited before
each retry is `min m (computed)` where `computed` is the strategy's value
at the current attempt count (first conjunct); when `maxDelay` is absent
(second conjunct) or not positive (third conjunct) the computed delay is
used unclamped; and concretely `linear(5)` with `maxDelay = 10` and
`maxRetries = 3` awaits 5, 10, 10 (fourth conjunct). -/
theorem c7_maxDelay_clamps :
    (∀ {T : Type} (N : Nat) (op : Nat → Except JsError T) (opName : String)
        (opts : RetryOptions T) (m : Int) (f : Nat → Option JsError → Int),
      opts.maxRetries = some N → opts.maxDelay = some m → 0 < m →
      opts.delay = some f →
      (∀ r e, opts.retryWhen r e = Except.ok true) →
      (Retry.do' op opName opts).2.waits =
        (List.range N).map (fun (i : Nat) => min m (f (i + 1) (runAttempts op i).2)))
    ∧ (∀ {T : Type} (N : Nat) (op : Nat → Except JsError T) (opName : String)
        (opts : RetryOptions T) (f : Nat → Option JsError → Int),
      opts.maxRetries = some N → opts.maxDelay = Option.none →
      opts.delay = some f →
      (∀ r e, opts.retryWhen r e = Except.ok true) →
      (Retry.do' op opName opts).2.waits =
        (List.range N).map (fun (i : Nat) => f (i + 1) (runAttempts op i).2))
    ∧ (∀ {T : Type} (N : Nat) (op : Nat → Except JsError T) (opName : String)
        (opts : RetryOptions T) (m : Int) (f : Nat → Option JsError → Int),
      opts.maxRetries = some N → opts.maxDelay = some m → m ≤ 0 →
      opts.delay = some f →
      (∀ r e, opts.retryWhen r e = Except.ok true) →
      (Retry.do' op opName opts).2.waits =
        (List.range N).map (fun (i : Nat) => f (i + 1) (runAttempts op i).2))
    ∧ ((Retry.do' (fun _ => Except.ok (0 : Nat)) "op"
        { maxRetries := some 3, maxDelay := some 10,
          retryWhen := liftCond Conditions.always,
          delay := some (fun a _ => Delays.linear 5 a) }).2.waits = [5, 10, 10]) := by
  have base : ∀ {T : Type} (N : Nat) (op : Nat → Except JsError T)
      (opName : String) (opts : RetryOptions T) (f : Nat → Option JsError → Int),
      opts.maxRetries = some N → opts.delay = some f →
      (∀ r e, opts.retryWhen r e = Except.ok true) →
      (Retry.do' op opName opts).2.waits =
        (List.range N).map (fun (i : Nat) =>
          applyMaxDelay opts.maxDelay (f (i + 1) (runAttempts op i).2)) := by
    intro T N op opName opts f hN hf hp
    rw [do'_always op opName opts N hN hp]
    rw [List.range_eq_range']
    simp only [hf, Option.getD_some]
  refine ⟨?_, ?_, ?_, ?_⟩
  · intro T N op opName opts m f hN hm hmpos hf hp
    rw [base N op opName opts f hN hf hp]
    refine List.map_congr_left (fun i _ => ?_)
    simp only [hm, applyMaxDelay, if_pos hmpos]
  · intro T N op opName opts f hN hm hf hp
    rw [base N op opName opts f hN hf hp]
    refine List.map_congr_left (fun i _ => ?_)
    simp only [hm, applyMaxDelay]
  · intro T N op opName opts m f hN hm hmnonpos hf hp
    rw [base N op opName opts f hN hf hp]
    refine List.map_congr_left (fun i _ => ?_)
    have : ¬ (0 : Int) < m := by omega
    simp only [hm, applyMaxDelay, if_neg this]
  · rw [base 3 (fun _ => Except.ok (0 : Nat)) "op" _
      (fun a _ => Delays.linear 5 a) rfl rfl (fun _ _ => rfl)]
    rfl

theorem c7_maxDelay_clamps_witness :
    (({ maxRetries := some 3, maxDelay := some 10,
        retryWhen := liftCond Conditions.always,
        delay := some (fun a _ => Delays.linear 5 a) } :
        RetryOptions Nat).maxDelay = some 10)
    ∧ ((0 : Int) < 10)
    ∧ (Retry.do' (fun _ => Except.ok (0 : Nat)) "op"
        { maxRetries := some 3, maxDelay := some 10,
          retryWhen := liftCond Conditions.always,
          delay := some (fun a _ => Delays.linear 5 a) }).2.waits
      = (List.range 3).map (fun (i : Nat) =>
          min (10 : Int) (Delays.linear 5 (i + 1))) :=
  ⟨rfl, by norm_num,
    c7_maxDelay_clamps.1 3 (fun _ => Except.ok 0) "op" _ 10
      (fun a _ => Delays.linear 5 a) rfl rfl (by norm_num) rfl (fun _ _ => rfl)⟩

/-- C4, counterexample: with `maxRetries = 1`, an always-true predicate and
`throwMaxAttemptError`, an operation that throws "boom" on the first
attempt and succeeds on the second exhausts the budget after 2 invocations;
an error *was* thrown during the execution, yet the synthesized
`MaxRetryAttemptsReached` has no cause and its message reads
"unfulfilled retry condition" — because the successful final attempt reset
`previousError`, contradicting "the cause is omitted exactly when no error
was ever thrown during the whole execution". -/
theorem c4_cause_counterexample :
    ((fun k => if k = 0 then Except.error ⟨"Error", "boom"⟩
        else Except.ok (42 : Nat) : Nat → Except JsError Nat) 0
      = Except.error ⟨"Error", "boom"⟩)
    ∧ (Retry.do' (fun k => if k = 0 then Except.error ⟨"Error", "boom"⟩
        else Except.ok (42 : Nat) : Nat → Except JsError Nat) "op"
        { maxRetries := some 1, throwMaxAttemptError := true,
          retryWhen := liftCond Conditions.always }).2.invocations = 2
    ∧ (Retry.do' (fun k => if k = 0 then Except.error ⟨"Error", "boom"⟩
        else Except.ok (42 : Nat) : Nat → Except JsError Nat) "op"
        { maxRetries := some 1, throwMaxAttemptError := true,
          retryWhen := liftCond Conditions.always }).1
      = Outcome.maxAttempts
          ⟨"Max re-attempts of 2 reached for operation \"op\". Caused by: unfulfilled retry condition",
           Option.none⟩ := by
  have h := do'_always
    (fun k => if k = 0 then Except.error ⟨"Error", "boom"⟩
      else Except.ok (42 : Nat) : Nat → Except JsError Nat) "op"
    { maxRetries := some 1, throwMaxAttemptError := true,
      retryWhen := liftCond Conditions.always } 1 rfl (fun _ _ => rfl)
  refine ⟨rfl, ?_, ?_⟩
  · rw [h]
  · rw [h]; rfl

/-- C4, amended: on the exhausted path with `throwMaxAttemptError`, the
`MaxRetryAttemptsReached` is built by `MaxRetryAttemptsReached.make` from
the message `Max re-attempts of {attempts} reached for operation "{name}".`
(so `make` appends ` Caused by thrown error: {cause.message}` when a cause
is present and ` Caused by: unfulfilled retry condition` otherwise); its
cause is the stored `previousError` of the *final* attempt: it is the
error the final attempt threw, and it is omitted exactly when the final
attempt succeeded — not when no error was ever thrown during the whole
execution. -/
theorem c4_outcome_error_shape {T : Type} (N : Nat)
    (op : Nat → Except JsError T) (opName : String) (opts : RetryOptions T)
    (hN : opts.maxRetries = some N)
    (htme : opts.throwMaxAttemptError = true)
    (hp : ∀ r e, opts.retryWhen r e = Except.ok true) :
    ((Retry.do' op opName opts).1 =
      Outcome.maxAttempts (MaxRetryAttemptsReached.make
        (s!"Max re-attempts of {N + 1} reached for operation \"{opts.nameOfOperation.getD opName}\".")
        (runAttempts op N).2))
    ∧ ((runAttempts op N).2 = Option.none ↔ ∃ v, op N = Except.ok v)
    ∧ (∀ e, op N = Except.error e → (runAttempts op N).2 = some e) := by
  refine ⟨?_, ?_, ?_⟩
  · rw [do'_always op opName opts N hN hp]
    simp [htme]
  · rw [runAttempts_snd]
    cases hop : op N with
    | ok v => simp
    | error e => simp
  · intro e he
    rw [runAttempts_snd, he]

theorem c4_outcome_error_shape_witness :
    (({ maxRetries := some 0, throwMaxAttemptError := true,
        retryWhen := liftCond Conditions.always } :
        RetryOptions Nat).maxRetries = some 0)
    ∧ (Retry.do' (fun _ => Except.error ⟨"Error", "only boom"⟩ :
          Nat → Except JsError Nat) "myOp"
        { maxRetries := some 0, throwMaxAttemptError := true,
          retryWhen := liftCond Conditions.always }).1
      = Outcome.maxAttempts (MaxRetryAttemptsReached.make
          "Max re-attempts of 1 reached for operation \"myOp\"."
          (runAttempts (fun _ => Except.error ⟨"Error", "only boom"⟩ :
            Nat → Except JsError Nat) 0).2) :=
  ⟨rfl,
    (c4_outcome_error_shape 0
      (fun _ => Except.error ⟨"Error", "only boom"⟩) "myOp" _
      rfl rfl (fun _ _ => rfl)).1⟩

/-- C9 (builder modelled from the spec, see `ConditionBuilder`): the
produced predicate returns true iff **any** registered rule matches — a
registered error type matching the thrown error, or a registered boolean
condition holding of the result (logical OR) — and the predicate produced
by the empty accumulator `Conditions.custom` returns false. -/
theorem c9_condition_builder {T : Type} (b : ConditionBuilder T)
    (result : Option T) (err : Option JsError) :
    (b.toCondition result err = true ↔
      ((∃ t ∈ b.errorTypes, ∃ e, err = some e ∧ e.name = t)
        ∨ ∃ c ∈ b.resultConditions, c result = true))
    ∧ ((Conditions.custom : ConditionBuilder T).toCondition result err = false) := by
  constructor
  · simp only [ConditionBuilder.toCondition, Bool.or_eq_true, List.any_eq_true]
    cases err with
    | none => simp
    | some e => simp [beq_iff_eq]
  · rfl
